import Mathlib

/-!
Shallow embedding of the Polygon module (src/Polygon.js).

JS numbers are modelled as real numbers; the `Infinity` / `-Infinity`
sentinels of the projection loops are modelled in `EReal`.  The repository
file contains two near-duplicate versions of the module one after the
other; definitions suffixed `V1` come from the first version (its SAT-only
`isColliding`, lines 25-68), the unsuffixed ones from the second version
(lines 190-394), which the collision claims cite.  Booleans are embedded
as `Bool`; a JS method that either returns `this` or `undefined` is
embedded as a pair of the new state and a `Bool` recording whether the
entity reference was returned.
-/

/-- A 2D point, the `{x, y}` objects of the JS module. -/
structure Point where
  x : ℝ
  y : ℝ

/-- Dot product used to project a point onto an axis
(`normal.x * points[j].x + normal.y * points[j].y`). -/
def project (n p : Point) : ℝ := n.x * p.x + n.y * p.y

/-- Running minimum of the projections of `ps` on axis `n`, starting from
the sentinel `Infinity` and lowering it whenever a smaller projection is
seen (`if (projected < min) min = projected`). -/
noncomputable def projMin (n : Point) (ps : List Point) : EReal :=
  ps.foldl (fun m p => min m ((project n p : ℝ) : EReal)) ⊤

/-- Running maximum of the projections of `ps` on axis `n`, starting from
the sentinel `-Infinity`. -/
noncomputable def projMax (n : Point) (ps : List Point) : EReal :=
  ps.foldl (fun m p => max m ((project n p : ℝ) : EReal)) ⊥

/-- Edge-normal axis of edge `i` of the polygon, normalized to unit length
(second version, lines 195-211): `point2 = points[(i + 1) % length]`,
`edge = point2 - point1`, `normal = (-edge.y, edge.x)`, then both
components divided by `sqrt (normal.x * normal.x + normal.y * normal.y)`. -/
noncomputable def axisOf (ps : List Point) (i : Nat) : Point :=
  let point1 := ps.getD i ⟨0, 0⟩
  let point2 := ps.getD ((i + 1) % ps.length) ⟨0, 0⟩
  let ex := point2.x - point1.x
  let ey := point2.y - point1.y
  let len := Real.sqrt ((-ey) * (-ey) + ex * ex)
  ⟨(-ey) / len, ex / len⟩

/-- Projection intervals of the two polygons on the normalized axis of edge
`i` of `ps1` are disjoint: the early-exit condition
`max1 < min2 || max2 < min1` of the SAT loop (lines 213-239). -/
noncomputable def separatedOnAxis (ps1 ps2 : List Point) (i : Nat) : Bool :=
  let n := axisOf ps1 i
  decide (projMax n ps1 < projMin n ps2 ∨ projMax n ps2 < projMin n ps1)

/-- Crossing test of `pointIsInPolygon` for one edge, the JS condition
`yi > y !== yj > y && x < ((xj - xi) * (y - yi)) / (yj - yi) + xi`
(line 273) with `pcur = points[i]` and `pprev = points[j]`. -/
def rayCrossesEdge (x y : ℝ) (pcur pprev : Point) : Prop :=
  (¬((y < pcur.y) ↔ (y < pprev.y))) ∧
    x < (pprev.x - pcur.x) * (y - pcur.y) / (pprev.y - pcur.y) + pcur.x

noncomputable instance (x y : ℝ) (pcur pprev : Point) :
    Decidable (rayCrossesEdge x y pcur pprev) := by
  unfold rayCrossesEdge; infer_instance

/-- Even-odd ray casting (lines 263-279): for `i` from `0` to `length - 1`
with `j = (i + length - 1) % length` (the JS loop header
`i = 0, j = length - 1; i < length; j = i++`), toggle the `inside` flag
whenever the horizontal ray from `(x, y)` crosses the edge from
`points[j]` to `points[i]`; return the final flag. -/
noncomputable def pointIsInPolygon (x y : ℝ) (points : List Point) : Bool :=
  (List.range points.length).foldl
    (fun inside i =>
      let pcur := points.getD i ⟨0, 0⟩
      let pprev := points.getD ((i + points.length - 1) % points.length) ⟨0, 0⟩
      if rayCrossesEdge x y pcur pprev then !inside else inside)
    false

/-- SAT collision test with containment fallback (second version, lines
190-255): if some axis derived from `ps1`'s edges separates the projection
intervals, return `false`; otherwise if some vertex of `ps1` is inside
`ps2`, or some vertex of `ps2` is inside `ps1` (ray casting), return
`true`; otherwise return `false` (line 254).  Polygons enter through
their world-space point sequences (`polygon.points`). -/
noncomputable def isColliding (ps1 ps2 : List Point) : Bool :=
  if (List.range ps1.length).any (fun i => separatedOnAxis ps1 ps2 i) then false
  else if ps1.any (fun p => pointIsInPolygon p.x p.y ps2) then true
  else if ps2.any (fun p => pointIsInPolygon p.x p.y ps1) then true
  else false

/-- Edge normal of the first version (lines 30-36): wrap through
`points1[i + 1] || points1[0]`, normal `(p2.y - p1.y, p1.x - p2.x)`,
not normalized. -/
def axisOfV1 (ps : List Point) (i : Nat) : Point :=
  let point1 := ps.getD i ⟨0, 0⟩
  let point2 := ps.getD (i + 1) (ps.getD 0 ⟨0, 0⟩)
  ⟨point2.y - point1.y, point1.x - point2.x⟩

/-- Early-exit condition of the first version's SAT loop on edge `i`. -/
noncomputable def separatedOnAxisV1 (ps1 ps2 : List Point) (i : Nat) : Bool :=
  let n := axisOfV1 ps1 i
  decide (projMax n ps1 < projMin n ps2 ∨ projMax n ps2 < projMin n ps1)

/-- First version of `isColliding` (lines 25-68): SAT over `ps1`'s edges
only, returning `true` when no separating axis is found. -/
noncomputable def isCollidingV1 (ps1 ps2 : List Point) : Bool :=
  if (List.range ps1.length).any (fun i => separatedOnAxisV1 ps1 ps2 i) then false
  else true

/-- Eight-sample circle containment probe (lines 289-298): angles
`i * Math.PI / 4` for `i` from `0` to `7`, returning `true` on the first
sampled point inside the polygon. -/
noncomputable def circleIsInPolygon (x y radius : ℝ) (ps : List Point) : Bool :=
  (List.range 8).any fun i =>
    pointIsInPolygon (x + Real.cos (i * Real.pi / 4) * radius)
      (y + Real.sin (i * Real.pi / 4) * radius) ps

/-- The Polygon entity: local shape points (`this._points`), vertex count
(`this.numPoints`), the two world-space coordinate buffers
(`this.xPoints`, `this.yPoints`) and the stored pose. -/
structure Polygon where
  _points : List Point
  numPoints : Nat
  xPoints : List ℝ
  yPoints : List ℝ
  x : ℝ
  y : ℝ
  radius : ℝ
  rotation : ℝ

/-- Body of `update` past the pose-equality guard (lines 335-349): store
the new pose and recompute both world buffers from the local points with
`cos = Math.cos(rotation)`, `sin = Math.sin(rotation)`. -/
noncomputable def Polygon.recompute (p : Polygon) (x y radius rotation : ℝ) : Polygon :=
  let c := Real.cos rotation
  let s := Real.sin rotation
  { p with
    x := x, y := y, radius := radius, rotation := rotation,
    xPoints := (List.range p.numPoints).map fun i =>
      x + ((p._points.getD i ⟨0, 0⟩).x * c - (p._points.getD i ⟨0, 0⟩).y * s) * radius,
    yPoints := (List.range p.numPoints).map fun i =>
      y + ((p._points.getD i ⟨0, 0⟩).y * c + (p._points.getD i ⟨0, 0⟩).x * s) * radius }

/-- Method `update` (lines 325-350).  The returned `Bool` records whether
the recomputation ran, which is also exactly when the JS method returns
`this` (on the no-op path it falls through with `return`, yielding
`undefined`). -/
noncomputable def Polygon.update (p : Polygon) (x y radius rotation : ℝ) : Polygon × Bool :=
  if x = p.x ∧ y = p.y ∧ radius = p.radius ∧ rotation = p.rotation then (p, false)
  else (p.recompute x y radius rotation, true)

/-- Constructor (lines 308-315): stores the shape and the vertex count,
allocates the zero-filled buffers, and runs the recomputation.  The JS
pose fields are still `undefined` when the constructor calls `update`, so
the no-op guard cannot fire there; this is embedded as an unconditional
`recompute`. -/
noncomputable def makePolygon (points : List Point) (x y radius rotation : ℝ) : Polygon :=
  Polygon.recompute
    { _points := points, numPoints := points.length,
      xPoints := List.replicate points.length 0,
      yPoints := List.replicate points.length 0,
      x := 0, y := 0, radius := 0, rotation := 0 }
    x y radius rotation

/-- Getter `points` (lines 357-367): the world-space point sequence, built
afresh from the two buffers. -/
def Polygon.points (p : Polygon) : List Point :=
  (List.range p.numPoints).map fun i => ⟨p.xPoints.getD i 0, p.yPoints.getD i 0⟩

/-- Method `borderBox` (lines 373-394): one loop accumulating the maximal
absolute deviation from the center on each axis, then divide both by the
radius. -/
noncomputable def Polygon.borderBox (p : Polygon) : ℝ × ℝ :=
  let wh := (List.range p.numPoints).foldl
    (fun wh i => (max wh.1 |p.xPoints.getD i 0 - p.x|, max wh.2 |p.yPoints.getD i 0 - p.y|))
    (0, 0)
  (wh.1 / p.radius, wh.2 / p.radius)

/-- Unit square local shape used by the spec's examples: corners `(±1, ±1)`
in counterclockwise order. -/
def squareShape : List Point := [⟨-1, -1⟩, ⟨1, -1⟩, ⟨1, 1⟩, ⟨-1, 1⟩]

/-- Number of polygon edges crossed by the horizontal ray from `(x, y)`.
Stated from the spec's even-odd description ("each crossing toggles an
`inside` flag"), for comparison with `pointIsInPolygon`. -/
noncomputable def crossingCount (x y : ℝ) (points : List Point) : Nat :=
  (List.range points.length).countP fun i =>
    decide (rayCrossesEdge x y (points.getD i ⟨0, 0⟩)
      (points.getD ((i + points.length - 1) % points.length) ⟨0, 0⟩))

/-- Axis-aligned rectangle with corners `(±3, ±1)`, given directly in world
space: the wide bar of an overlapping cross (used for claim C1). -/
def rectWide : List Point := [⟨-3, -1⟩, ⟨3, -1⟩, ⟨3, 1⟩, ⟨-3, 1⟩]

/-- Axis-aligned rectangle with corners `(±1, ±3)`, the tall bar of the
overlapping cross (used for claim C1). -/
def rectTall : List Point := [⟨-1, -3⟩, ⟨1, -3⟩, ⟨1, 3⟩, ⟨-1, 3⟩]

/-- Large square of the spec's full-containment example: the square shape
at center `(0, 0)` with radius `10`. -/
noncomputable def bigSquare : Polygon := makePolygon squareShape 0 0 10 0

/-- Small square of the spec's full-containment example: the square shape
at center `(0, 0)` with radius `1`. -/
noncomputable def smallSquare : Polygon := makePolygon squareShape 0 0 1 0

/-- Unit square centered at `(5, 0)`, world-space: disjoint from the unit
square at the origin (used for claim C3). -/
def farSquare : List Point := [⟨4, -1⟩, ⟨6, -1⟩, ⟨6, 1⟩, ⟨4, 1⟩]

/-! Helper lemmas: evaluation of list accesses on small concrete lists,
projection folds in `EReal`, square roots of literal squares, and the
parity and maximum shapes of the two accumulating loops. -/

lemma getD4_0 {α : Type} (a b c d e : α) : List.getD [a, b, c, d] 0 e = a := rfl

lemma getD4_1 {α : Type} (a b c d e : α) : List.getD [a, b, c, d] 1 e = b := rfl

lemma getD4_2 {α : Type} (a b c d e : α) : List.getD [a, b, c, d] 2 e = c := rfl

lemma getD4_3 {α : Type} (a b c d e : α) : List.getD [a, b, c, d] 3 e = d := rfl

lemma getD4_4 {α : Type} (a b c d e : α) : List.getD [a, b, c, d] 4 e = e := rfl

lemma getD2_0 {α : Type} (a b e : α) : List.getD [a, b] 0 e = a := rfl

lemma getD2_1 {α : Type} (a b e : α) : List.getD [a, b] 1 e = b := rfl

lemma getD1_0 {α : Type} (a e : α) : List.getD [a] 0 e = a := rfl

lemma range4 : List.range 4 = [0, 1, 2, 3] := rfl

lemma getD_map_range {α : Type} (f : ℕ → α) {i n : ℕ} (h : i < n) (d : α) :
    ((List.range n).map f).getD i d = f i := by
  rw [List.getD_eq_getElem?_getD, List.getElem?_map, List.getElem?_range h]
  rfl

lemma ecoe_min (a b : ℝ) : min (a : EReal) (b : EReal) = ((min a b : ℝ) : EReal) :=
  (EReal.coe_strictMono.monotone.map_min).symm

lemma ecoe_max (a b : ℝ) : max (a : EReal) (b : EReal) = ((max a b : ℝ) : EReal) :=
  (EReal.coe_strictMono.monotone.map_max).symm

lemma min_top_ereal (a : EReal) : min ⊤ a = a := min_eq_right le_top

lemma max_bot_ereal (a : EReal) : max ⊥ a = a := max_eq_right bot_le

lemma projMin_four (n a b c d : Point) :
    projMin n [a, b, c, d] =
      ((min (min (min (project n a) (project n b)) (project n c)) (project n d) : ℝ) : EReal) := by
  simp [projMin, min_top_ereal, ecoe_min]

lemma projMax_four (n a b c d : Point) :
    projMax n [a, b, c, d] =
      ((max (max (max (project n a) (project n b)) (project n c)) (project n d) : ℝ) : EReal) := by
  simp [projMax, max_bot_ereal, ecoe_max]

lemma sqrt4 : Real.sqrt 4 = 2 := by
  rw [show (4 : ℝ) = 2 ^ 2 by norm_num]
  exact Real.sqrt_sq (by norm_num)

lemma sqrt36 : Real.sqrt 36 = 6 := by
  rw [show (36 : ℝ) = 6 ^ 2 by norm_num]
  exact Real.sqrt_sq (by norm_num)

lemma sqrt400 : Real.sqrt 400 = 20 := by
  rw [show (400 : ℝ) = 20 ^ 2 by norm_num]
  exact Real.sqrt_sq (by norm_num)

lemma foldl_toggle (P : ℕ → Prop) [DecidablePred P] (l : List ℕ) (b : Bool) :
    l.foldl (fun inside i => if P i then !inside else inside) b =
      (b != decide (Odd (l.countP fun i => decide (P i)))) := by
  induction l generalizing b with
  | nil => simp
  | cons a t ih =>
      by_cases h : P a
      · have hc : (a :: t).countP (fun i => decide (P i)) =
            t.countP (fun i => decide (P i)) + 1 := by
          simp [List.countP_cons, h]
        rw [List.foldl_cons, if_pos h, ih]
        simp only [hc, Nat.odd_add_one, decide_not]
        cases b <;> cases decide (Odd (t.countP fun i => decide (P i))) <;> rfl
      · have hc : (a :: t).countP (fun i => decide (P i)) =
            t.countP (fun i => decide (P i)) := by
          simp [List.countP_cons, h]
        rw [List.foldl_cons, if_neg h, ih]
        simp only [hc]

lemma pointIsInPolygon_eq_parity (x y : ℝ) (ps : List Point) :
    pointIsInPolygon x y ps = decide (Odd (crossingCount x y ps)) := by
  simp only [pointIsInPolygon, crossingCount]
  rw [foldl_toggle (fun i => rayCrossesEdge x y (ps.getD i ⟨0, 0⟩)
    (ps.getD ((i + ps.length - 1) % ps.length) ⟨0, 0⟩))]
  cases decide (Odd ((List.range ps.length).countP fun i => decide (rayCrossesEdge x y
    (ps.getD i ⟨0, 0⟩) (ps.getD ((i + ps.length - 1) % ps.length) ⟨0, 0⟩)))) <;> rfl

lemma foldl_max_pair (g h : ℕ → ℝ) (l : List ℕ) (a b : ℝ) :
    l.foldl (fun wh i => (max wh.1 (g i), max wh.2 (h i))) (a, b) =
      (l.foldl (fun w i => max w (g i)) a, l.foldl (fun w i => max w (h i)) b) := by
  induction l generalizing a b with
  | nil => rfl
  | cons c t ih => rw [List.foldl_cons, List.foldl_cons, List.foldl_cons]; exact ih _ _

lemma borderBox_eq (p : Polygon) :
    p.borderBox =
      ((List.range p.numPoints).foldl (fun w i => max w |p.xPoints.getD i 0 - p.x|) 0 / p.radius,
       (List.range p.numPoints).foldl (fun w i => max w |p.yPoints.getD i 0 - p.y|) 0 / p.radius) := by
  simp only [Polygon.borderBox]
  rw [foldl_max_pair (fun i => |p.xPoints.getD i 0 - p.x|) (fun i => |p.yPoints.getD i 0 - p.y|)]

lemma foldl_max_ge_init (f : ℕ → ℝ) (l : List ℕ) (a : ℝ) :
    a ≤ l.foldl (fun w i => max w (f i)) a := by
  induction l generalizing a with
  | nil => exact le_refl a
  | cons c t ih => exact le_trans (le_max_left a (f c)) (ih _)

lemma foldl_max_ge_mem (f : ℕ → ℝ) (l : List ℕ) (i : ℕ) :
    ∀ a : ℝ, i ∈ l → f i ≤ l.foldl (fun w j => max w (f j)) a := by
  induction l with
  | nil => intro a hi; cases hi
  | cons c t ih =>
      intro a hi
      rw [List.foldl_cons]
      rcases List.mem_cons.mp hi with h | h
      · subst h
        exact le_trans (le_max_right a (f i)) (foldl_max_ge_init f t _)
      · exact ih _ h

lemma foldl_max_le (f : ℕ → ℝ) (l : List ℕ) (M : ℝ) :
    ∀ a : ℝ, a ≤ M → (∀ i ∈ l, f i ≤ M) → l.foldl (fun w i => max w (f i)) a ≤ M := by
  induction l with
  | nil => intro a h0 _; exact h0
  | cons c t ih =>
      intro a h0 h
      rw [List.foldl_cons]
      exact ih _ (max_le h0 (h c (List.mem_cons_self _ _)))
        (fun i hi => h i (List.mem_cons_of_mem _ hi))

lemma foldl_max_sup (f : ℕ → ℝ) (hf : ∀ i, 0 ≤ f i) (n : ℕ)
    (hne : (Finset.range n).Nonempty) :
    (List.range n).foldl (fun w i => max w (f i)) 0 = (Finset.range n).sup' hne f := by
  apply le_antisymm
  · refine foldl_max_le f _ _ 0 ?_ ?_
    · obtain ⟨j, hj⟩ := hne
      exact le_trans (hf j) (Finset.le_sup' f hj)
    · intro i hi
      exact Finset.le_sup' f (Finset.mem_range.mpr (List.mem_range.mp hi))
  · apply Finset.sup'_le
    intro i hi
    exact foldl_max_ge_mem f _ i 0 (List.mem_range.mpr (Finset.mem_range.mp hi))

lemma makePolygon_numPoints (pts : List Point) (x y r rot : ℝ) :
    (makePolygon pts x y r rot).numPoints = pts.length := rfl

lemma makePolygon_x (pts : List Point) (x y r rot : ℝ) : (makePolygon pts x y r rot).x = x := rfl

lemma makePolygon_y (pts : List Point) (x y r rot : ℝ) : (makePolygon pts x y r rot).y = y := rfl

lemma makePolygon_radius (pts : List Point) (x y r rot : ℝ) :
    (makePolygon pts x y r rot).radius = r := rfl

lemma makePolygon_rotation (pts : List Point) (x y r rot : ℝ) :
    (makePolygon pts x y r rot).rotation = rot := rfl

lemma makePolygon_square_points (x₀ y₀ R : ℝ) :
    (makePolygon squareShape x₀ y₀ R 0).points =
      [⟨x₀ - R, y₀ - R⟩, ⟨x₀ + R, y₀ - R⟩, ⟨x₀ + R, y₀ + R⟩, ⟨x₀ - R, y₀ + R⟩] := by
  simp only [Polygon.points, makePolygon, Polygon.recompute, squareShape]
  norm_num [range4, getD4_0, getD4_1, getD4_2, getD4_3, Point.mk.injEq,
    Real.cos_zero, Real.sin_zero]
  ring_nf
  exact ⟨⟨trivial, trivial⟩, trivial, trivial⟩

lemma update_fst_pose (p : Polygon) (x y r rot : ℝ) :
    ((p.update x y r rot).1.x = x) ∧ ((p.update x y r rot).1.y = y) ∧
      ((p.update x y r rot).1.radius = r) ∧ ((p.update x y r rot).1.rotation = rot) := by
  rw [Polygon.update]
  by_cases h : x = p.x ∧ y = p.y ∧ r = p.radius ∧ rot = p.rotation
  · rw [if_pos h]
    exact ⟨h.1.symm, h.2.1.symm, h.2.2.1.symm, h.2.2.2.symm⟩
  · rw [if_neg h]
    exact ⟨rfl, rfl, rfl, rfl⟩

lemma range1 : List.range 1 = [0] := rfl

lemma range2 : List.range 2 = [0, 1] := rfl

lemma update_self_pose (q : Polygon) (x y r rot : ℝ) (h1 : q.x = x) (h2 : q.y = y)
    (h3 : q.radius = r) (h4 : q.rotation = rot) : q.update x y r rot = (q, false) := by
  rw [Polygon.update, if_pos ⟨h1.symm, h2.symm, h3.symm, h4.symm⟩]

lemma rayCrossesEdge_symm_mp (x y : ℝ) (p q : Point) (h : rayCrossesEdge x y p q) :
    rayCrossesEdge x y q p := by
  obtain ⟨h1, h2⟩ := h
  have hne : q.y ≠ p.y := by
    intro he
    exact h1 (by rw [he])
  have hne1 : q.y - p.y ≠ 0 := sub_ne_zero.mpr hne
  have hne2 : p.y - q.y ≠ 0 := sub_ne_zero.mpr hne.symm
  refine ⟨fun hiff => h1 hiff.symm, ?_⟩
  have key : (q.x - p.x) * (y - p.y) / (q.y - p.y) + p.x =
      (p.x - q.x) * (y - q.y) / (p.y - q.y) + q.x := by
    field_simp
    ring
  calc x < (q.x - p.x) * (y - p.y) / (q.y - p.y) + p.x := h2
    _ = (p.x - q.x) * (y - q.y) / (p.y - q.y) + q.x := key

lemma rayCrossesEdge_symm (x y : ℝ) (p q : Point) :
    rayCrossesEdge x y p q ↔ rayCrossesEdge x y q p :=
  ⟨rayCrossesEdge_symm_mp x y p q, rayCrossesEdge_symm_mp x y q p⟩

lemma isColliding_of_noSep_contained (ps1 ps2 : List Point)
    (h1 : ∀ i < ps1.length, separatedOnAxis ps1 ps2 i = false)
    (h2 : (ps1.any fun p => pointIsInPolygon p.x p.y ps2) = true ∨
      (ps2.any fun p => pointIsInPolygon p.x p.y ps1) = true) :
    isColliding ps1 ps2 = true := by
  have hany : ((List.range ps1.length).any fun i => separatedOnAxis ps1 ps2 i) = false := by
    rw [List.any_eq_false]
    intro i hi
    rw [h1 i (List.mem_range.mp hi)]
    exact Bool.false_ne_true
  rw [isColliding, hany, if_neg Bool.false_ne_true]
  rcases h2 with hA | hB
  · rw [if_pos hA]
  · by_cases hA : (ps1.any fun p => pointIsInPolygon p.x p.y ps2) = true
    · rw [if_pos hA]
    · rw [if_neg hA, if_pos hB]

lemma makePolygon_square_xPoints (x₀ y₀ R : ℝ) :
    (makePolygon squareShape x₀ y₀ R 0).xPoints = [x₀ - R, x₀ + R, x₀ + R, x₀ - R] := by
  simp only [makePolygon, Polygon.recompute, squareShape]
  norm_num [range4, getD4_0, getD4_1, getD4_2, getD4_3, Real.cos_zero, Real.sin_zero]
  ring_nf

lemma makePolygon_square_yPoints (x₀ y₀ R : ℝ) :
    (makePolygon squareShape x₀ y₀ R 0).yPoints = [y₀ - R, y₀ - R, y₀ + R, y₀ + R] := by
  simp only [makePolygon, Polygon.recompute, squareShape]
  norm_num [range4, getD4_0, getD4_1, getD4_2, getD4_3, Real.cos_zero, Real.sin_zero]
  ring_nf

lemma bigSquare_points :
    bigSquare.points = [⟨-10, -10⟩, ⟨10, -10⟩, ⟨10, 10⟩, ⟨-10, 10⟩] := by
  rw [bigSquare, makePolygon_square_points]
  norm_num [Point.mk.injEq]

lemma smallSquare_points :
    smallSquare.points = [⟨-1, -1⟩, ⟨1, -1⟩, ⟨1, 1⟩, ⟨-1, 1⟩] := by
  rw [smallSquare, makePolygon_square_points]
  norm_num [Point.mk.injEq]

lemma borderBox_square (x₀ y₀ R : ℝ) :
    (makePolygon squareShape x₀ y₀ R 0).borderBox = (|R| / R, |R| / R) := by
  rw [borderBox_eq, makePolygon_square_xPoints, makePolygon_square_yPoints,
    makePolygon_numPoints, makePolygon_x, makePolygon_y, makePolygon_radius]
  norm_num [squareShape, range4, getD4_0, getD4_1, getD4_2, getD4_3, abs_neg,
    max_self, max_eq_right (abs_nonneg R)]

/-- C4: a pose differing from the stored one in at least one component makes
`update` store the new pose, recompute every world vertex by the
rotate-scale-translate formula, and return the entity reference. -/
theorem update_recomputes_on_pose_change (p : Polygon) (x y radius rotation : ℝ)
    (h : ¬(x = p.x ∧ y = p.y ∧ radius = p.radius ∧ rotation = p.rotation)) :
    (p.update x y radius rotation).2 = true ∧
      (p.update x y radius rotation).1.x = x ∧
      (p.update x y radius rotation).1.y = y ∧
      (p.update x y radius rotation).1.radius = radius ∧
      (p.update x y radius rotation).1.rotation = rotation ∧
      ∀ i < p.numPoints,
        (p.update x y radius rotation).1.xPoints.getD i 0 =
          x + ((p._points.getD i ⟨0, 0⟩).x * Real.cos rotation -
            (p._points.getD i ⟨0, 0⟩).y * Real.sin rotation) * radius ∧
        (p.update x y radius rotation).1.yPoints.getD i 0 =
          y + ((p._points.getD i ⟨0, 0⟩).y * Real.cos rotation +
            (p._points.getD i ⟨0, 0⟩).x * Real.sin rotation) * radius := by
  rw [Polygon.update, if_neg h]
  exact ⟨rfl, rfl, rfl, rfl, rfl,
    fun i hi => ⟨getD_map_range _ hi _, getD_map_range _ hi _⟩⟩

/-- Witness for C4 at a concrete polygon: moving the unit square from the
origin to `(1, 0)` recomputes and returns the entity. -/
theorem update_recomputes_on_pose_change_witness :
    (¬((1 : ℝ) = (makePolygon squareShape 0 0 1 0).x ∧
        (0 : ℝ) = (makePolygon squareShape 0 0 1 0).y ∧
        (1 : ℝ) = (makePolygon squareShape 0 0 1 0).radius ∧
        (0 : ℝ) = (makePolygon squareShape 0 0 1 0).rotation)) ∧
      ((makePolygon squareShape 0 0 1 0).update 1 0 1 0).2 = true := by
  have h : ¬((1 : ℝ) = (makePolygon squareShape 0 0 1 0).x ∧
      (0 : ℝ) = (makePolygon squareShape 0 0 1 0).y ∧
      (1 : ℝ) = (makePolygon squareShape 0 0 1 0).radius ∧
      (0 : ℝ) = (makePolygon squareShape 0 0 1 0).rotation) := by
    rintro ⟨h1, -⟩
    rw [makePolygon_x] at h1
    exact one_ne_zero h1
  exact ⟨h, (update_recomputes_on_pose_change _ 1 0 1 0 h).1⟩

/-- C5: an `update` whose pose equals the stored pose exactly leaves the
state unchanged and returns no entity reference, and after any `update` a
second call with the same arguments is such a no-op, so the recomputation
runs at most once for a repeated pose. -/
theorem update_noop_on_equal_pose (p : Polygon) (x y r rot : ℝ) :
    p.update p.x p.y p.radius p.rotation = (p, false) ∧
      (p.update x y r rot).1.update x y r rot = ((p.update x y r rot).1, false) := by
  refine ⟨update_self_pose p _ _ _ _ rfl rfl rfl rfl, ?_⟩
  obtain ⟨h1, h2, h3, h4⟩ := update_fst_pose p x y r rot
  exact update_self_pose _ _ _ _ _ h1 h2 h3 h4

/-- C7: `pointIsInPolygon` is the even-odd ray-casting rule (true exactly
when the crossing count is odd), and on the square with corners `(±1, ±1)`
it holds at `(0, 0)` and fails at `(5, 5)`. -/
theorem pointIsInPolygon_even_odd :
    (∀ (x y : ℝ) (ps : List Point),
        (pointIsInPolygon x y ps = true ↔ Odd (crossingCount x y ps))) ∧
      pointIsInPolygon 0 0 squareShape = true ∧
      pointIsInPolygon 5 5 squareShape = false := by
  refine ⟨fun x y ps => ?_, ?_, ?_⟩
  · rw [pointIsInPolygon_eq_parity]
    exact decide_eq_true_iff
  · norm_num [pointIsInPolygon, squareShape, range4, getD4_0, getD4_1, getD4_2, getD4_3,
      rayCrossesEdge]
  · norm_num [pointIsInPolygon, squareShape, range4, getD4_0, getD4_1, getD4_2, getD4_3,
      rayCrossesEdge]

/-- C8: an edge with equal endpoint heights never satisfies the crossing
test that toggles the `inside` flag of `pointIsInPolygon`, and whenever the
crossing test holds its divisor `yj - yi` is nonzero, so the division is
never taken on a zero divisor. -/
theorem rayCrossesEdge_equal_y_safe (x y : ℝ) (pcur pprev : Point) :
    (pcur.y = pprev.y → ¬rayCrossesEdge x y pcur pprev) ∧
      (rayCrossesEdge x y pcur pprev → pprev.y - pcur.y ≠ 0) := by
  constructor
  · intro he hc
    exact hc.1 (by rw [he])
  · rintro ⟨h1, -⟩ h0
    have he : pprev.y = pcur.y := sub_eq_zero.mp h0
    exact h1 (by rw [he])

/-- Witness for C8: a horizontal edge at height `1` is never crossed, and a
crossed vertical edge has a nonzero divisor. -/
theorem rayCrossesEdge_equal_y_safe_witness :
    (¬rayCrossesEdge 0 0 ⟨0, 1⟩ ⟨2, 1⟩) ∧
      ((⟨0, 1⟩ : Point).y - (⟨0, -1⟩ : Point).y ≠ 0) := by
  constructor
  · exact (rayCrossesEdge_equal_y_safe 0 0 ⟨0, 1⟩ ⟨2, 1⟩).1 rfl
  · exact (rayCrossesEdge_equal_y_safe (-1) 0 ⟨0, -1⟩ ⟨0, 1⟩).2
      (by norm_num [rayCrossesEdge])

/-- C9: `circleIsInPolygon` returns true exactly when one of the eight
sampled points at angles `i * PI / 4` lies inside the polygon. -/
theorem circleIsInPolygon_iff_sample (x y r : ℝ) (ps : List Point) :
    circleIsInPolygon x y r ps = true ↔
      ∃ i : ℕ, i < 8 ∧ pointIsInPolygon (x + Real.cos (i * Real.pi / 4) * r)
        (y + Real.sin (i * Real.pi / 4) * r) ps = true := by
  rw [circleIsInPolygon, List.any_eq_true]
  constructor
  · rintro ⟨i, hi, h⟩
    exact ⟨i, List.mem_range.mp hi, h⟩
  · rintro ⟨i, hi, h⟩
    exact ⟨i, List.mem_range.mpr hi, h⟩

/-- C10: on a degenerate polygon with fewer than three points the
ray-casting loop toggles an even number of times, so `pointIsInPolygon`
returns false. -/
theorem pointIsInPolygon_degenerate_false (x y : ℝ) (ps : List Point)
    (h : ps.length < 3) : pointIsInPolygon x y ps = false := by
  rcases ps with _ | ⟨p, _ | ⟨q, _ | ⟨r, t⟩⟩⟩
  · rfl
  · norm_num [pointIsInPolygon, range1, getD1_0, rayCrossesEdge]
  · by_cases hc : rayCrossesEdge x y p q
    · have hc2 : rayCrossesEdge x y q p := (rayCrossesEdge_symm x y p q).mp hc
      norm_num [pointIsInPolygon, range2, getD2_0, getD2_1, hc, hc2]
    · have hc2 : ¬rayCrossesEdge x y q p := fun h2 => hc ((rayCrossesEdge_symm x y p q).mpr h2)
      norm_num [pointIsInPolygon, range2, getD2_0, getD2_1, hc, hc2]
  · simp only [List.length_cons] at h
    omega

/-- Witness for C10: a two-point polygon never contains a point, here the
origin against the degenerate segment from `(0, -1)` to `(0, 1)`. -/
theorem pointIsInPolygon_degenerate_false_witness :
    (([(⟨0, -1⟩ : Point), ⟨0, 1⟩]).length < 3) ∧
      pointIsInPolygon 0 0 [⟨0, -1⟩, ⟨0, 1⟩] = false := by
  refine ⟨by norm_num, ?_⟩
  exact pointIsInPolygon_degenerate_false 0 0 _ (by norm_num)

/-- C3: finding one edge of the first polygon whose normalized normal axis
yields disjoint projection intervals makes `isColliding` return false
immediately. -/
theorem isColliding_false_of_separating_axis (ps1 ps2 : List Point)
    (h : ∃ i < ps1.length, separatedOnAxis ps1 ps2 i = true) :
    isColliding ps1 ps2 = false := by
  obtain ⟨i, hi, hsep⟩ := h
  rw [isColliding, if_pos (List.any_eq_true.mpr ⟨i, List.mem_range.mpr hi, hsep⟩)]

/-- Witness for C3: the unit square at the origin against the unit square
centered at `(5, 0)`, separated along the normal of edge `1`. -/
theorem isColliding_false_of_separating_axis_witness :
    (∃ i < squareShape.length, separatedOnAxis squareShape farSquare i = true) ∧
      isColliding squareShape farSquare = false := by
  have hsep : separatedOnAxis squareShape farSquare 1 = true := by
    rw [separatedOnAxis]
    rw [show axisOf squareShape 1 = ⟨-1, 0⟩ by
      norm_num [axisOf, squareShape, getD4_1, getD4_2, sqrt4, Point.mk.injEq]]
    rw [squareShape, farSquare, projMin_four, projMax_four, projMin_four, projMax_four]
    simp only [EReal.coe_lt_coe_iff, decide_eq_true_eq]
    norm_num [project]
  have hex : ∃ i < squareShape.length, separatedOnAxis squareShape farSquare i = true :=
    ⟨1, by norm_num [squareShape], hsep⟩
  exact ⟨hex, isColliding_false_of_separating_axis squareShape farSquare hex⟩

/-- C6 (amended): for a polygon with at least one vertex and nonzero
radius, `borderBox` returns the maximal absolute deviation from the center
on each axis divided by the radius, and for the square shape at any center
and any positive radius `R` the result is `(1, 1)` independently of `R`.
The original claim allowed any nonzero `R`; it fails for negative `R`. -/
theorem borderBox_maximum (p : Polygon) (hn : p.numPoints ≠ 0) (hr : p.radius ≠ 0) :
    (p.borderBox.1 =
        (Finset.range p.numPoints).sup' (Finset.nonempty_range_iff.mpr hn)
          (fun i => |p.xPoints.getD i 0 - p.x|) / p.radius ∧
      p.borderBox.2 =
        (Finset.range p.numPoints).sup' (Finset.nonempty_range_iff.mpr hn)
          (fun i => |p.yPoints.getD i 0 - p.y|) / p.radius) ∧
      ∀ R : ℝ, 0 < R → ∀ x₀ y₀ : ℝ,
        (makePolygon squareShape x₀ y₀ R 0).borderBox = (1, 1) := by
  refine ⟨⟨?_, ?_⟩, ?_⟩
  · rw [borderBox_eq,
      foldl_max_sup (fun i => |p.xPoints.getD i 0 - p.x|) (fun i => abs_nonneg _) _
        (Finset.nonempty_range_iff.mpr hn)]
  · rw [borderBox_eq,
      foldl_max_sup (fun i => |p.yPoints.getD i 0 - p.y|) (fun i => abs_nonneg _) _
        (Finset.nonempty_range_iff.mpr hn)]
  · intro R hR x₀ y₀
    rw [borderBox_square, abs_of_pos hR, div_self (ne_of_gt hR)]

/-- Counterexample to C6 as stated: the radius `-1` is nonzero, yet the
square's `borderBox` is `(-1, -1)` rather than `(1, 1)`. -/
theorem borderBox_negative_radius_counterexample :
    ((-1 : ℝ) ≠ 0) ∧ (makePolygon squareShape 0 0 (-1) 0).borderBox ≠ (1, 1) := by
  refine ⟨by norm_num, ?_⟩
  rw [borderBox_square]
  norm_num [Prod.ext_iff]

/-- Witness for C6 at the square with radius `2`. -/
theorem borderBox_maximum_witness :
    ((makePolygon squareShape 0 0 2 0).numPoints ≠ 0) ∧
      ((makePolygon squareShape 0 0 2 0).radius ≠ 0) ∧ (0 < (2 : ℝ)) ∧
      (makePolygon squareShape 0 0 2 0).borderBox = (1, 1) := by
  have hn : (makePolygon squareShape 0 0 2 0).numPoints ≠ 0 := by
    rw [makePolygon_numPoints]
    norm_num [squareShape]
  have hr : (makePolygon squareShape 0 0 2 0).radius ≠ 0 := by
    rw [makePolygon_radius]
    norm_num
  exact ⟨hn, hr, by norm_num, (borderBox_maximum _ hn hr).2 2 (by norm_num) 0 0⟩

lemma bigSmall_noSep : ∀ i < bigSquare.points.length,
    separatedOnAxis bigSquare.points smallSquare.points i = false := by
  rw [bigSquare_points, smallSquare_points]
  have h0 : separatedOnAxis [(⟨-10, -10⟩ : Point), ⟨10, -10⟩, ⟨10, 10⟩, ⟨-10, 10⟩]
      [⟨-1, -1⟩, ⟨1, -1⟩, ⟨1, 1⟩, ⟨-1, 1⟩] 0 = false := by
    rw [separatedOnAxis]
    rw [show axisOf [(⟨-10, -10⟩ : Point), ⟨10, -10⟩, ⟨10, 10⟩, ⟨-10, 10⟩] 0 = ⟨0, 1⟩ by
      norm_num [axisOf, getD4_0, getD4_1, sqrt400, Point.mk.injEq]]
    rw [projMin_four, projMax_four, projMin_four, projMax_four]
    simp only [EReal.coe_lt_coe_iff, decide_eq_false_iff_not]
    norm_num [project]
  have h1 : separatedOnAxis [(⟨-10, -10⟩ : Point), ⟨10, -10⟩, ⟨10, 10⟩, ⟨-10, 10⟩]
      [⟨-1, -1⟩, ⟨1, -1⟩, ⟨1, 1⟩, ⟨-1, 1⟩] 1 = false := by
    rw [separatedOnAxis]
    rw [show axisOf [(⟨-10, -10⟩ : Point), ⟨10, -10⟩, ⟨10, 10⟩, ⟨-10, 10⟩] 1 = ⟨-1, 0⟩ by
      norm_num [axisOf, getD4_1, getD4_2, sqrt400, Point.mk.injEq]]
    rw [projMin_four, projMax_four, projMin_four, projMax_four]
    simp only [EReal.coe_lt_coe_iff, decide_eq_false_iff_not]
    norm_num [project]
  have h2 : separatedOnAxis [(⟨-10, -10⟩ : Point), ⟨10, -10⟩, ⟨10, 10⟩, ⟨-10, 10⟩]
      [⟨-1, -1⟩, ⟨1, -1⟩, ⟨1, 1⟩, ⟨-1, 1⟩] 2 = false := by
    rw [separatedOnAxis]
    rw [show axisOf [(⟨-10, -10⟩ : Point), ⟨10, -10⟩, ⟨10, 10⟩, ⟨-10, 10⟩] 2 = ⟨0, -1⟩ by
      norm_num [axisOf, getD4_2, getD4_3, sqrt400, Point.mk.injEq]]
    rw [projMin_four, projMax_four, projMin_four, projMax_four]
    simp only [EReal.coe_lt_coe_iff, decide_eq_false_iff_not]
    norm_num [project]
  have h3 : separatedOnAxis [(⟨-10, -10⟩ : Point), ⟨10, -10⟩, ⟨10, 10⟩, ⟨-10, 10⟩]
      [⟨-1, -1⟩, ⟨1, -1⟩, ⟨1, 1⟩, ⟨-1, 1⟩] 3 = false := by
    rw [separatedOnAxis]
    rw [show axisOf [(⟨-10, -10⟩ : Point), ⟨10, -10⟩, ⟨10, 10⟩, ⟨-10, 10⟩] 3 = ⟨1, 0⟩ by
      norm_num [axisOf, getD4_3, getD4_0, sqrt400, Point.mk.injEq]]
    rw [projMin_four, projMax_four, projMin_four, projMax_four]
    simp only [EReal.coe_lt_coe_iff, decide_eq_false_iff_not]
    norm_num [project]
  intro i hi
  norm_num at hi
  interval_cases i
  · exact h0
  · exact h1
  · exact h2
  · exact h3

lemma bigSmall_contained :
    (smallSquare.points.any fun p => pointIsInPolygon p.x p.y bigSquare.points) = true := by
  rw [bigSquare_points, smallSquare_points]
  have h : pointIsInPolygon (-1) (-1)
      [(⟨-10, -10⟩ : Point), ⟨10, -10⟩, ⟨10, 10⟩, ⟨-10, 10⟩] = true := by
    norm_num [pointIsInPolygon, range4, getD4_0, getD4_1, getD4_2, getD4_3, rayCrossesEdge]
  simp [h]

/-- C2: with no separating axis found among the first polygon's edge
normals, a vertex of either polygon inside the other makes `isColliding`
return true; in particular it returns true for the radius-10 square fully
containing the radius-1 square, both centered at the origin with no
crossing edges. -/
theorem isColliding_true_of_containment (ps1 ps2 : List Point)
    (h1 : ∀ i < ps1.length, separatedOnAxis ps1 ps2 i = false)
    (h2 : (ps1.any fun p => pointIsInPolygon p.x p.y ps2) = true ∨
      (ps2.any fun p => pointIsInPolygon p.x p.y ps1) = true) :
    isColliding ps1 ps2 = true ∧
      isColliding bigSquare.points smallSquare.points = true :=
  ⟨isColliding_of_noSep_contained ps1 ps2 h1 h2,
    isColliding_of_noSep_contained _ _ bigSmall_noSep (Or.inr bigSmall_contained)⟩

/-- Witness for C2 at the containment example itself. -/
theorem isColliding_true_of_containment_witness :
    (∀ i < bigSquare.points.length,
        separatedOnAxis bigSquare.points smallSquare.points i = false) ∧
      ((bigSquare.points.any fun p => pointIsInPolygon p.x p.y smallSquare.points) = true ∨
        (smallSquare.points.any fun p => pointIsInPolygon p.x p.y bigSquare.points) = true) ∧
      isColliding bigSquare.points smallSquare.points = true :=
  ⟨bigSmall_noSep, Or.inr bigSmall_contained,
    (isColliding_true_of_containment _ _ bigSmall_noSep (Or.inr bigSmall_contained)).1⟩

lemma cross_noSep : ∀ i < rectWide.length, separatedOnAxis rectWide rectTall i = false := by
  have h0 : separatedOnAxis rectWide rectTall 0 = false := by
    rw [separatedOnAxis]
    rw [show axisOf rectWide 0 = ⟨0, 1⟩ by
      norm_num [axisOf, rectWide, getD4_0, getD4_1, sqrt36, Point.mk.injEq]]
    rw [rectWide, rectTall, projMin_four, projMax_four, projMin_four, projMax_four]
    simp only [EReal.coe_lt_coe_iff, decide_eq_false_iff_not]
    norm_num [project]
  have h1 : separatedOnAxis rectWide rectTall 1 = false := by
    rw [separatedOnAxis]
    rw [show axisOf rectWide 1 = ⟨-1, 0⟩ by
      norm_num [axisOf, rectWide, getD4_1, getD4_2, sqrt4, Point.mk.injEq]]
    rw [rectWide, rectTall, projMin_four, projMax_four, projMin_four, projMax_four]
    simp only [EReal.coe_lt_coe_iff, decide_eq_false_iff_not]
    norm_num [project]
  have h2 : separatedOnAxis rectWide rectTall 2 = false := by
    rw [separatedOnAxis]
    rw [show axisOf rectWide 2 = ⟨0, -1⟩ by
      norm_num [axisOf, rectWide, getD4_2, getD4_3, sqrt36, Point.mk.injEq]]
    rw [rectWide, rectTall, projMin_four, projMax_four, projMin_four, projMax_four]
    simp only [EReal.coe_lt_coe_iff, decide_eq_false_iff_not]
    norm_num [project]
  have h3 : separatedOnAxis rectWide rectTall 3 = false := by
    rw [separatedOnAxis]
    rw [show axisOf rectWide 3 = ⟨1, 0⟩ by
      norm_num [axisOf, rectWide, getD4_3, getD4_0, sqrt4, Point.mk.injEq]]
    rw [rectWide, rectTall, projMin_four, projMax_four, projMin_four, projMax_four]
    simp only [EReal.coe_lt_coe_iff, decide_eq_false_iff_not]
    norm_num [project]
  intro i hi
  norm_num [rectWide] at hi
  interval_cases i
  · exact h0
  · exact h1
  · exact h2
  · exact h3

lemma cross_wide_not_in_tall :
    ∀ p ∈ rectWide, pointIsInPolygon p.x p.y rectTall = false := by
  have hA0 : pointIsInPolygon (-3) (-1) rectTall = false := by
    norm_num [pointIsInPolygon, rectTall, range4, getD4_0, getD4_1, getD4_2, getD4_3,
      rayCrossesEdge]
  have hA1 : pointIsInPolygon 3 (-1) rectTall = false := by
    norm_num [pointIsInPolygon, rectTall, range4, getD4_0, getD4_1, getD4_2, getD4_3,
      rayCrossesEdge]
  have hA2 : pointIsInPolygon 3 1 rectTall = false := by
    norm_num [pointIsInPolygon, rectTall, range4, getD4_0, getD4_1, getD4_2, getD4_3,
      rayCrossesEdge]
  have hA3 : pointIsInPolygon (-3) 1 rectTall = false := by
    norm_num [pointIsInPolygon, rectTall, range4, getD4_0, getD4_1, getD4_2, getD4_3,
      rayCrossesEdge]
  intro p hp
  simp only [rectWide, List.mem_cons, List.not_mem_nil, or_false] at hp
  rcases hp with rfl | rfl | rfl | rfl
  · exact hA0
  · exact hA1
  · exact hA2
  · exact hA3

lemma cross_tall_not_in_wide :
    ∀ p ∈ rectTall, pointIsInPolygon p.x p.y rectWide = false := by
  have hB0 : pointIsInPolygon (-1) (-3) rectWide = false := by
    norm_num [pointIsInPolygon, rectWide, range4, getD4_0, getD4_1, getD4_2, getD4_3,
      rayCrossesEdge]
  have hB1 : pointIsInPolygon 1 (-3) rectWide = false := by
    norm_num [pointIsInPolygon, rectWide, range4, getD4_0, getD4_1, getD4_2, getD4_3,
      rayCrossesEdge]
  have hB2 : pointIsInPolygon 1 3 rectWide = false := by
    norm_num [pointIsInPolygon, rectWide, range4, getD4_0, getD4_1, getD4_2, getD4_3,
      rayCrossesEdge]
  have hB3 : pointIsInPolygon (-1) 3 rectWide = false := by
    norm_num [pointIsInPolygon, rectWide, range4, getD4_0, getD4_1, getD4_2, getD4_3,
      rayCrossesEdge]
  intro p hp
  simp only [rectTall, List.mem_cons, List.not_mem_nil, or_false] at hp
  rcases hp with rfl | rfl | rfl | rfl
  · exact hB0
  · exact hB1
  · exact hB2
  · exact hB3

lemma cross_noSepV1 : ∀ i < rectWide.length, separatedOnAxisV1 rectWide rectTall i = false := by
  have h0 : separatedOnAxisV1 rectWide rectTall 0 = false := by
    rw [separatedOnAxisV1]
    rw [show axisOfV1 rectWide 0 = ⟨0, -6⟩ by
      norm_num [axisOfV1, rectWide, getD4_0, getD4_1, Point.mk.injEq]]
    rw [rectWide, rectTall, projMin_four, projMax_four, projMin_four, projMax_four]
    simp only [EReal.coe_lt_coe_iff, decide_eq_false_iff_not]
    norm_num [project]
  have h1 : separatedOnAxisV1 rectWide rectTall 1 = false := by
    rw [separatedOnAxisV1]
    rw [show axisOfV1 rectWide 1 = ⟨2, 0⟩ by
      norm_num [axisOfV1, rectWide, getD4_1, getD4_2, Point.mk.injEq]]
    rw [rectWide, rectTall, projMin_four, projMax_four, projMin_four, projMax_four]
    simp only [EReal.coe_lt_coe_iff, decide_eq_false_iff_not]
    norm_num [project]
  have h2 : separatedOnAxisV1 rectWide rectTall 2 = false := by
    rw [separatedOnAxisV1]
    rw [show axisOfV1 rectWide 2 = ⟨0, 6⟩ by
      norm_num [axisOfV1, rectWide, getD4_2, getD4_3, Point.mk.injEq]]
    rw [rectWide, rectTall, projMin_four, projMax_four, projMin_four, projMax_four]
    simp only [EReal.coe_lt_coe_iff, decide_eq_false_iff_not]
    norm_num [project]
  have h3 : separatedOnAxisV1 rectWide rectTall 3 = false := by
    rw [separatedOnAxisV1]
    rw [show axisOfV1 rectWide 3 = ⟨-2, 0⟩ by
      norm_num [axisOfV1, rectWide, getD4_3, getD4_4, getD4_0, Point.mk.injEq]]
    rw [rectWide, rectTall, projMin_four, projMax_four, projMin_four, projMax_four]
    simp only [EReal.coe_lt_coe_iff, decide_eq_false_iff_not]
    norm_num [project]
  intro i hi
  norm_num [rectWide] at hi
  interval_cases i
  · exact h0
  · exact h1
  · exact h2
  · exact h3

/-- C1 (evidence of the divergence): for the genuinely overlapping cross of
rectangles `(±3, ±1)` and `(±1, ±3)`, no axis derived from the first
rectangle's edges separates the projection intervals and no vertex of
either rectangle lies inside the other by ray casting; the second version's
`isColliding` nevertheless returns false at its final line, where the
spec's phase 3 prescribes true, while the first version returns true. -/
theorem isColliding_crossing_rectangles_false :
    (∀ i < rectWide.length, separatedOnAxis rectWide rectTall i = false) ∧
      (∀ p ∈ rectWide, pointIsInPolygon p.x p.y rectTall = false) ∧
      (∀ p ∈ rectTall, pointIsInPolygon p.x p.y rectWide = false) ∧
      isColliding rectWide rectTall = false ∧
      isCollidingV1 rectWide rectTall = true := by
  refine ⟨cross_noSep, cross_wide_not_in_tall, cross_tall_not_in_wide, ?_, ?_⟩
  · have hany : ((List.range rectWide.length).any
        fun i => separatedOnAxis rectWide rectTall i) = false := by
      rw [List.any_eq_false]
      intro i hi
      rw [cross_noSep i (List.mem_range.mp hi)]
      exact Bool.false_ne_true
    have hanyA : (rectWide.any fun p => pointIsInPolygon p.x p.y rectTall) = false := by
      rw [List.any_eq_false]
      intro p hp
      rw [cross_wide_not_in_tall p hp]
      exact Bool.false_ne_true
    have hanyB : (rectTall.any fun p => pointIsInPolygon p.x p.y rectWide) = false := by
      rw [List.any_eq_false]
      intro p hp
      rw [cross_tall_not_in_wide p hp]
      exact Bool.false_ne_true
    rw [isColliding, hany, if_neg Bool.false_ne_true, hanyA, if_neg Bool.false_ne_true,
      hanyB, if_neg Bool.false_ne_true]
  · have hany : ((List.range rectWide.length).any
        fun i => separatedOnAxisV1 rectWide rectTall i) = false := by
      rw [List.any_eq_false]
      intro i hi
      rw [cross_noSepV1 i (List.mem_range.mp hi)]
      exact Bool.false_ne_true
    rw [isCollidingV1, hany, if_neg Bool.false_ne_true]
